import Mathlib

/-!
Verification development for the live-subtitles backend.

The definitions below are a shallow embedding of `src/backend/main.py`:
the `TranscriptionService` model registry (`load_model`, download-progress
state, `model_status` endpoint) and the dual-cadence websocket streaming
loop (instant and final lanes, rolling buffers with overlap, per-lane
time-windowed deduplication, per-lane error handling).

External effects are made explicit: the local-weights check and the
model fetch are oracle arguments, the wall clock is an oracle value per
segment, and the transcription call per flush is an oracle outcome.
-/

namespace LiveSubtitles

/-- Loaded model handles are opaque; only identity matters. -/
abbrev Handle := Nat

/-- The per-tier slot table `self.models`: a dict with exactly the five
tier keys, each holding an optional loaded handle. -/
structure ModelTable where
  tiny : Option Handle
  base : Option Handle
  small : Option Handle
  medium : Option Handle
  large : Option Handle
deriving DecidableEq, Repr

/-- Dict key membership `model_size in self.models`. -/
def validTier (t : String) : Bool :=
  t == "tiny" || t == "base" || t == "small" || t == "medium" || t == "large"

/-- Dict read `self.models.get(model_size)`: `none` for unknown keys. -/
def ModelTable.get (m : ModelTable) (t : String) : Option Handle :=
  if t == "tiny" then m.tiny
  else if t == "base" then m.base
  else if t == "small" then m.small
  else if t == "medium" then m.medium
  else if t == "large" then m.large
  else none

/-- Dict write `self.models[model_size] = h`. -/
def ModelTable.set (m : ModelTable) (t : String) (h : Option Handle) : ModelTable :=
  if t == "tiny" then { m with tiny := h }
  else if t == "base" then { m with base := h }
  else if t == "small" then { m with small := h }
  else if t == "medium" then { m with medium := h }
  else if t == "large" then { m with large := h }
  else m

/-- The static size-estimate lookup table in `update_download_progress`. -/
def sizeEstimate (t : String) : String :=
  if t == "tiny" then "80 MB"
  else if t == "base" then "150 MB"
  else if t == "small" then "500 MB"
  else if t == "medium" then "1.5 GB"
  else if t == "large" then "3 GB"
  else "Unknown"

/-- The poll-able `self.download_progress` record. -/
structure DownloadProgress where
  status : String
  is_downloading : Bool
  model : String
deriving DecidableEq, Repr

/-- Mutable state of `TranscriptionService` relevant to loading and status. -/
structure RegistryState where
  models : ModelTable
  current_model : String
  download_progress : Option DownloadProgress
  is_downloading : Bool
deriving DecidableEq, Repr

/-- The initial status record published by the progress thread in
`update_download_progress` right after a download begins. -/
def beginProgress (t : String) : DownloadProgress :=
  { status := "Laddar ner " ++ t ++ " modell (" ++ sizeEstimate t ++ ")..."
    is_downloading := true
    model := t }

/-- The downloading-state entry step inside `load_model` when the weights
are absent locally: set `self.is_downloading = True` and start the
progress thread, whose first action publishes `beginProgress`. -/
def load_begin (s : RegistryState) (t : String) : RegistryState :=
  { s with is_downloading := true, download_progress := some (beginProgress t) }

/-- Which tier a currently in-flight download is fetching, as recorded by
the published progress record. -/
def downloadingTier (s : RegistryState) : Option String :=
  s.download_progress.bind (fun p => if p.is_downloading then some p.model else none)

/-- Result of one `load_model` call: the post state, the normal or
exceptional outcome, and whether the model constructor (the
fetch-and-initialize step) was invoked at all. -/
structure LoadResult where
  state : RegistryState
  outcome : Except String Unit
  fetchAttempted : Bool
deriving Repr

/-- `TranscriptionService.load_model`, sequentialized.  `existsLocally` is
the result of `model_exists_locally`; `fetch` is the outcome of the
`WhisperModel(...)` constructor (fetch-and-initialize). -/
def load_model (s : RegistryState) (t : String) (existsLocally : Bool)
    (fetch : Except String Handle) : LoadResult :=
  if validTier t = false then
    { state := s, outcome := .error ("Invalid model size: " ++ t), fetchAttempted := false }
  else if (s.models.get t).isSome then
    { state := { s with current_model := t }, outcome := .ok (), fetchAttempted := false }
  else
    let s1 := if existsLocally = false then load_begin s t else s
    match fetch with
    | .ok h =>
        { state := { s1 with
            models := s1.models.set t (some h)
            is_downloading := false
            current_model := t
            download_progress := none }
          outcome := .ok ()
          fetchAttempted := true }
    | .error e =>
        { state := { s1 with is_downloading := false, download_progress := none }
          outcome := .error e
          fetchAttempted := true }

/-- Response record of the `/model-status` endpoint. -/
structure ModelStatus where
  model : String
  is_loaded : Bool
  is_downloading : Bool
  is_current : Bool
deriving DecidableEq, Repr

/-- The `/model-status` endpoint handler `model_status`. -/
def model_status (s : RegistryState) (t : String) : ModelStatus :=
  { model := t
    is_loaded := (s.models.get t).isSome
    is_downloading := s.is_downloading && (s.current_model == t)
    is_current := s.current_model == t }

/-- Beam size passed to the model in `transcribe_audio`:
`beam_size = 6 - vad_sensitivity`, then `beam_size=max(1, beam_size)`. -/
def effectiveBeamSize (vad : Int) : Int := max 1 (6 - vad)

/-- Final-lane threshold in `websocket_endpoint`: `buffer_size = 30 - (vad * 2)`. -/
def buffer_size (vad : Int) : Int := 30 - vad * 2

/-- The fixed instant-lane threshold `instant_buffer_size = 8`. -/
def instant_buffer_size : Nat := 8

/-- An audio chunk: the float32 samples decoded from one binary frame.
Sample values are opaque; only their identity and order matter here. -/
abbrev Chunk := List Nat

/-- A transcript segment as built in `transcribe_audio`:
`text` (already stripped there), `start` and `stop` offsets. -/
structure Segment where
  text : String
  start : Rat
  stop : Rat
deriving DecidableEq, Repr

/-- Per-lane deduplication state: the last emitted text and its wall-clock
time (`last_instant_text`, `last_instant_time` and the final-lane pair). -/
structure DedupState where
  lastText : String
  lastTime : Rat
deriving DecidableEq, Repr

/-- The two cadence lanes of the streaming loop. -/
inductive Lane
  | instant
  | final
deriving DecidableEq, Repr

/-- The dedup cadence threshold: `> 1.0` for instant, `> 2.0` for final. -/
def Lane.cadence : Lane → Rat
  | .instant => 1
  | .final => 2

/-- Python str.strip(): drop leading and trailing whitespace. -/
def pyStrip (s : String) : String :=
  String.mk (((s.toList.dropWhile Char.isWhitespace).reverse.dropWhile
    Char.isWhitespace).reverse)

/-- One emission decision for one segment at wall-clock time `now`:
`text = transcription["text"].strip()`, emit when
`text and (text != last or now - last_time > threshold)`; the lane state
is updated exactly on emit. Returns the new state and the decision. -/
def emitDecision (threshold : Rat) (st : DedupState) (seg : Segment) (now : Rat) :
    DedupState × Bool :=
  let text := pyStrip seg.text
  if (text != "") && ((text != st.lastText) || decide (now - st.lastTime > threshold)) then
    ({ lastText := text, lastTime := now }, true)
  else
    (st, false)

/-- The per-flush loop over returned segments, in order; each segment is
paired with the `time.time()` reading taken for it.  Returns the final
dedup state and the list of emitted segments (the original segment data
is what the websocket sends). -/
def processSegments (threshold : Rat) (st : DedupState) :
    List (Segment × Rat) → DedupState × List Segment
  | [] => (st, [])
  | (seg, now) :: rest =>
      let d := emitDecision threshold st seg now
      let r := processSegments threshold d.1 rest
      (r.1, (if d.2 then [seg] else []) ++ r.2)

/-- Events the websocket sends from inside the streaming loop. -/
inductive OutEvent
  | transcription (lane : Lane) (data : Segment)
  | error (msg : String)
deriving DecidableEq, Repr

/-- Oracle outcome of one `transcribe_audio` call during a flush: either
the returned segments with their per-segment clock readings, or the
exception message. -/
inductive FlushOutcome
  | ok (segs : List (Segment × Rat))
  | error (msg : String)
deriving DecidableEq, Repr

/-- Python slice `l[-(k):]`: with `k = 0` this is `l[0:]`, the whole
list; with `k > 0` it keeps the last `min k l.length` elements. -/
def pySliceLast (k : Nat) (l : List α) : List α :=
  if k = 0 then l else l.drop (l.length - k)

/-- One lane of the streaming loop: its chunk buffer and dedup state. -/
structure LaneState where
  buffer : List Chunk
  dedup : DedupState
deriving DecidableEq, Repr

/-- Output of one lane step: the next lane state, the concatenated audio
passed to the adapter when a flush happened, and the events sent. -/
structure StepOut where
  state : LaneState
  flushed : Option (List Nat)
  events : List OutEvent
deriving DecidableEq, Repr

/-- One lane iteration of the websocket loop body for one arriving chunk:
append the chunk; if the buffer has reached the threshold, concatenate
it, truncate to the `threshold // 4` overlap, and run the transcription
attempt — on success filter segments through dedup and emit
transcription events, on failure the instant lane only logs while the
final lane sends one error event. -/
def laneStep (lane : Lane) (threshold : Nat) (s : LaneState) (c : Chunk)
    (oracle : FlushOutcome) : StepOut :=
  let buf := s.buffer ++ [c]
  if buf.length ≥ threshold then
    let audio := buf.flatten
    let buf' := pySliceLast (threshold / 4) buf
    match oracle with
    | .ok segs =>
        let r := processSegments lane.cadence s.dedup segs
        { state := { buffer := buf', dedup := r.1 }
          flushed := some audio
          events := r.2.map (OutEvent.transcription lane) }
    | .error msg =>
        { state := { buffer := buf', dedup := s.dedup }
          flushed := some audio
          events := match lane with
            | .instant => []
            | .final => [OutEvent.error msg] }
  else
    { state := { s with buffer := buf }, flushed := none, events := [] }

/-- Run one lane over a sequence of arriving chunks, each paired with the
oracle outcome its potential flush would see.  Returns the final lane
state, the list of concatenations passed to the adapter (one per flush,
in order), and all events sent. -/
def runLane (lane : Lane) (threshold : Nat) (s : LaneState) :
    List (Chunk × FlushOutcome) → LaneState × List (List Nat) × List OutEvent
  | [] => (s, [], [])
  | (c, o) :: rest =>
      let st := laneStep lane threshold s c o
      let r := runLane lane threshold st.state rest
      (r.1, st.flushed.toList ++ r.2.1, st.events ++ r.2.2)

/-- The per-session mutable state of the websocket loop. -/
structure SessionState where
  audio_buffer : List Chunk
  instant_buffer : List Chunk
  finalDedup : DedupState
  instantDedup : DedupState
deriving DecidableEq, Repr

/-- Session state at the top of the loop: empty buffers, empty last
texts, zero last times. -/
def initSession : SessionState :=
  { audio_buffer := []
    instant_buffer := []
    finalDedup := { lastText := "", lastTime := 0 }
    instantDedup := { lastText := "", lastTime := 0 } }

/-- One full iteration of the websocket receive loop for one chunk: the
instant lane runs first (only when instant mode is enabled), then the
final lane; `bufSize` is the final-lane threshold `buffer_size`. -/
def sessionStep (instantMode : Bool) (bufSize : Nat) (s : SessionState) (c : Chunk)
    (oInstant oFinal : FlushOutcome) : SessionState × List OutEvent :=
  let instStep :=
    if instantMode then
      laneStep .instant instant_buffer_size ⟨s.instant_buffer, s.instantDedup⟩ c oInstant
    else
      ⟨⟨s.instant_buffer, s.instantDedup⟩, none, []⟩
  let finStep := laneStep .final bufSize ⟨s.audio_buffer, s.finalDedup⟩ c oFinal
  (⟨finStep.state.buffer, instStep.state.buffer, finStep.state.dedup, instStep.state.dedup⟩,
   instStep.events ++ finStep.events)

/-- Run the whole session loop over a list of arriving chunks with their
per-lane oracle outcomes. -/
def sessionRun (instantMode : Bool) (bufSize : Nat) (s : SessionState) :
    List (Chunk × FlushOutcome × FlushOutcome) → SessionState × List OutEvent
  | [] => (s, [])
  | (c, oI, oF) :: rest =>
      let st := sessionStep instantMode bufSize s c oI oF
      let r := sessionRun instantMode bufSize st.1 rest
      (r.1, st.2 ++ r.2)

/-- A concrete registry state used to instantiate theorems: the small
tier is loaded (handle 7) and current, nothing is downloading. -/
def sampleState : RegistryState :=
  { models := { tiny := none, base := none, small := some 7, medium := none, large := none }
    current_model := "small"
    download_progress := none
    is_downloading := false }

/-- A tier with a loaded handle is necessarily one of the five dict keys. -/
theorem valid_of_get_isSome (m : ModelTable) (t : String)
    (h : (m.get t).isSome = true) : validTier t = true := by
  simp only [ModelTable.get] at h
  simp only [validTier]
  by_cases h1 : t == "tiny"
  · simp [h1]
  · by_cases h2 : t == "base"
    · simp [h1, h2]
    · by_cases h3 : t == "small"
      · simp [h1, h2, h3]
      · by_cases h4 : t == "medium"
        · simp [h1, h2, h3, h4]
        · by_cases h5 : t == "large"
          · simp [h1, h2, h3, h4, h5]
          · simp [h1, h2, h3, h4, h5] at h

/-- Claim C4: for every sensitivity value in [1,5], the final-lane flush
threshold equals 30 - 2*sensitivity and is never below 2, and the beam
size passed to the model equals max(1, 6 - sensitivity), in exact
integer arithmetic. -/
theorem threshold_and_beam_derivation (v : Int) (h1 : 1 ≤ v) (h2 : v ≤ 5) :
    buffer_size v = 30 - 2 * v ∧ 2 ≤ buffer_size v ∧
    effectiveBeamSize v = max 1 (6 - v) := by
  refine ⟨by unfold buffer_size; ring, ?_, rfl⟩
  unfold buffer_size
  omega

/-- Witness for claim C4 at sensitivity 3: threshold 24, beam 3. -/
theorem threshold_and_beam_derivation_witness :
    ((1 : Int) ≤ 3 ∧ (3 : Int) ≤ 5) ∧
    (buffer_size 3 = 30 - 2 * 3 ∧ 2 ≤ buffer_size 3 ∧
      effectiveBeamSize 3 = max 1 (6 - 3)) :=
  ⟨⟨by decide, by decide⟩, threshold_and_beam_derivation 3 (by decide) (by decide)⟩

/-- Claim C6: load is idempotent when the tier already holds a loaded
handle: no fetch and no handle creation happen, the handle table is
unchanged (same handle before and after), the tier becomes current, and
the call returns normally. -/
theorem load_idempotent_when_loaded (s : RegistryState) (t : String) (h : Handle)
    (ex : Bool) (fetch : Except String Handle)
    (hloaded : s.models.get t = some h) :
    load_model s t ex fetch =
      { state := { s with current_model := t }
        outcome := .ok ()
        fetchAttempted := false } := by
  have hv : validTier t = true := valid_of_get_isSome s.models t (by simp [hloaded])
  simp [load_model, hv, hloaded]

/-- Witness for claim C6: the small tier is loaded in `sampleState`; a
load of small fetches nothing and keeps handle 7. -/
theorem load_idempotent_when_loaded_witness :
    sampleState.models.get "small" = some 7 ∧
    load_model sampleState "small" true (.ok 9) =
      { state := { sampleState with current_model := "small" }
        outcome := .ok ()
        fetchAttempted := false } :=
  ⟨by decide, load_idempotent_when_loaded sampleState "small" 7 true (.ok 9) (by decide)⟩

/-- Claim C7: when the fetch-and-initialize step fails for an unloaded
valid tier, load clears the downloading flag and the poll-able download
status before propagating the error; the tier slot stays without a
handle (the whole table is unchanged) and the current tier is
unchanged. -/
theorem load_failure_clears_download_state (s : RegistryState) (t : String)
    (ex : Bool) (msg : String)
    (hv : validTier t = true) (hnone : s.models.get t = none) :
    (load_model s t ex (.error msg)).state.is_downloading = false ∧
    (load_model s t ex (.error msg)).state.download_progress = none ∧
    (load_model s t ex (.error msg)).state.models = s.models ∧
    (load_model s t ex (.error msg)).state.current_model = s.current_model ∧
    (load_model s t ex (.error msg)).outcome = .error msg ∧
    (load_model s t ex (.error msg)).fetchAttempted = true := by
  simp only [load_model, hv, hnone]
  cases ex <;> simp [load_begin]

/-- Witness for claim C7: a failing load of the absent medium tier on
`sampleState`. -/
theorem load_failure_clears_download_state_witness :
    (validTier "medium" = true ∧ sampleState.models.get "medium" = none) ∧
    ((load_model sampleState "medium" false (.error "boom")).state.is_downloading = false ∧
     (load_model sampleState "medium" false (.error "boom")).state.download_progress = none ∧
     (load_model sampleState "medium" false (.error "boom")).state.models = sampleState.models ∧
     (load_model sampleState "medium" false (.error "boom")).state.current_model =
       sampleState.current_model ∧
     (load_model sampleState "medium" false (.error "boom")).outcome = .error "boom" ∧
     (load_model sampleState "medium" false (.error "boom")).fetchAttempted = true) :=
  ⟨⟨by decide, by decide⟩,
    load_failure_clears_download_state sampleState "medium" false "boom"
      (by decide) (by decide)⟩

/-- Claim C10: for any string that is not one of the five tier names,
load raises before performing any mutation: the returned state is
exactly the input state, no fetch is attempted, and the error message
names the invalid size. -/
theorem load_invalid_tier_no_mutation (s : RegistryState) (t : String)
    (ex : Bool) (fetch : Except String Handle) (hv : validTier t = false) :
    load_model s t ex fetch =
      { state := s
        outcome := .error ("Invalid model size: " ++ t)
        fetchAttempted := false } := by
  simp [load_model, hv]

/-- Witness for claim C10 at the invalid tier string "huge". -/
theorem load_invalid_tier_no_mutation_witness :
    validTier "huge" = false ∧
    load_model sampleState "huge" true (.ok 9) =
      { state := sampleState
        outcome := .error ("Invalid model size: " ++ "huge")
        fetchAttempted := false } :=
  ⟨by decide, load_invalid_tier_no_mutation sampleState "huge" true (.ok 9) (by decide)⟩

/-- Claim C8 counterexample: while the absent medium tier is being
fetched (the downloading state entered by load for medium on
`sampleState`, whose current tier is small), the model-status query
reports is_downloading = false for medium — the tier actually being
fetched — and is_downloading = true for small, which is not being
fetched.  The status is therefore not a per-tier fetch-in-flight
indicator independent of the current tier. -/
theorem model_status_downloading_mismatch :
    validTier "medium" = true ∧
    sampleState.models.get "medium" = none ∧
    downloadingTier (load_begin sampleState "medium") = some "medium" ∧
    (model_status (load_begin sampleState "medium") "medium").is_downloading = false ∧
    (model_status (load_begin sampleState "medium") "small").is_downloading = true ∧
    downloadingTier (load_begin sampleState "medium") ≠ some "small" := by
  decide

/-- Claim C8 as amended: the model-status query is a pure function of
the registry state; its is_downloading field is true exactly when some
download is in flight AND the queried tier is the current tier (so it
does not track the tier actually being fetched when that tier is not
current); is_loaded and is_current are per-tier queries of the slot
table and the current tier. -/
theorem model_status_fields (s : RegistryState) (t : String) :
    ((model_status s t).is_downloading = true ↔
      s.is_downloading = true ∧ s.current_model = t) ∧
    (model_status s t).is_loaded = (s.models.get t).isSome ∧
    (model_status s t).is_current = (s.current_model == t) ∧
    (model_status s t).model = t := by
  refine ⟨?_, rfl, rfl, rfl⟩
  simp [model_status]

/-- Length of the Python tail slice. -/
theorem pySliceLast_length (k : Nat) (l : List α) :
    (pySliceLast k l).length = if k = 0 then l.length else min k l.length := by
  unfold pySliceLast
  split
  · rfl
  · simp only [List.length_drop]
    omega

/-- Buffer field of one lane step, independent of the oracle. -/
theorem laneStep_state_buffer (lane : Lane) (thr : Nat) (s : LaneState) (c : Chunk)
    (o : FlushOutcome) :
    (laneStep lane thr s c o).state.buffer =
      if (s.buffer ++ [c]).length ≥ thr then pySliceLast (thr / 4) (s.buffer ++ [c])
      else s.buffer ++ [c] := by
  have hlen : (s.buffer ++ [c]).length = s.buffer.length + 1 := by simp
  by_cases h : (s.buffer ++ [c]).length ≥ thr
  · rw [if_pos h]
    rw [hlen] at h
    cases o <;> simp [laneStep, h]
  · rw [if_neg h]
    rw [hlen] at h
    cases o <;> simp [laneStep, h]

/-- Flushed concatenation of one lane step, independent of the oracle. -/
theorem laneStep_flushed (lane : Lane) (thr : Nat) (s : LaneState) (c : Chunk)
    (o : FlushOutcome) :
    (laneStep lane thr s c o).flushed =
      if (s.buffer ++ [c]).length ≥ thr then some (s.buffer ++ [c]).flatten
      else none := by
  have hlen : (s.buffer ++ [c]).length = s.buffer.length + 1 := by simp
  by_cases h : (s.buffer ++ [c]).length ≥ thr
  · rw [if_pos h]
    rw [hlen] at h
    cases o <;> simp [laneStep, h]
  · rw [if_neg h]
    rw [hlen] at h
    cases o <;> simp [laneStep, h]

/-- A lane step below threshold only appends the chunk. -/
theorem laneStep_no_flush (lane : Lane) (thr : Nat) (s : LaneState) (c : Chunk)
    (o : FlushOutcome) (h : ¬ (s.buffer ++ [c]).length ≥ thr) :
    laneStep lane thr s c o = ⟨⟨s.buffer ++ [c], s.dedup⟩, none, []⟩ := by
  unfold laneStep
  rw [if_neg h]

/-- One lane step keeps the buffer strictly below a threshold of at
least 4. -/
theorem laneStep_buffer_lt (lane : Lane) (thr : Nat) (s : LaneState) (c : Chunk)
    (o : FlushOutcome) (hthr : 4 ≤ thr) (hlt : s.buffer.length < thr) :
    (laneStep lane thr s c o).state.buffer.length < thr := by
  have hlen : (s.buffer ++ [c]).length = s.buffer.length + 1 := by simp
  rw [laneStep_state_buffer]
  split
  · rw [pySliceLast_length]
    have hk : thr / 4 ≠ 0 := by omega
    rw [if_neg hk]
    omega
  · omega

/-- One session iteration keeps both lane buffers strictly below their
thresholds. -/
theorem sessionStep_buffer_lt (instantMode : Bool) (bufSize : Nat) (s : SessionState)
    (c : Chunk) (oI oF : FlushOutcome) (hb : 4 ≤ bufSize)
    (hA : s.audio_buffer.length < bufSize) (hI : s.instant_buffer.length < 8) :
    (sessionStep instantMode bufSize s c oI oF).1.audio_buffer.length < bufSize ∧
    (sessionStep instantMode bufSize s c oI oF).1.instant_buffer.length < 8 := by
  constructor
  · exact laneStep_buffer_lt .final bufSize ⟨s.audio_buffer, s.finalDedup⟩ c oF hb hA
  · cases instantMode
    · exact hI
    · exact laneStep_buffer_lt .instant instant_buffer_size
        ⟨s.instant_buffer, s.instantDedup⟩ c oI (by decide) hI

/-- The session loop preserves the buffer bound from any state
satisfying it. -/
theorem sessionRun_buffer_lt (instantMode : Bool) (bufSize : Nat) (hb : 4 ≤ bufSize) :
    ∀ (inputs : List (Chunk × FlushOutcome × FlushOutcome)) (s : SessionState),
      s.audio_buffer.length < bufSize → s.instant_buffer.length < 8 →
      (sessionRun instantMode bufSize s inputs).1.audio_buffer.length < bufSize ∧
      (sessionRun instantMode bufSize s inputs).1.instant_buffer.length < 8 := by
  intro inputs
  induction inputs with
  | nil => intro s hA hI; exact ⟨hA, hI⟩
  | cons p rest ih =>
      intro s hA hI
      obtain ⟨c, oI, oF⟩ := p
      obtain ⟨hA', hI'⟩ := sessionStep_buffer_lt instantMode bufSize s c oI oF hb hA hI
      exact ih _ hA' hI'

/-- Claim C9: starting from the initial session state, at every wait
point of the loop each lane buffer holds strictly fewer chunks than its
threshold (final: 30 - 2*sensitivity, instant: 8), for every sensitivity
in [1,5], every instant-mode setting and every input sequence. -/
theorem session_loop_buffer_invariant (sv : Nat) (h1 : 1 ≤ sv) (h2 : sv ≤ 5)
    (instantMode : Bool) (inputs : List (Chunk × FlushOutcome × FlushOutcome)) :
    (sessionRun instantMode (30 - 2 * sv) initSession inputs).1.audio_buffer.length
        < 30 - 2 * sv ∧
    (sessionRun instantMode (30 - 2 * sv) initSession inputs).1.instant_buffer.length
        < 8 := by
  have hb : 4 ≤ 30 - 2 * sv := by omega
  exact sessionRun_buffer_lt instantMode (30 - 2 * sv) hb inputs initSession
    (by simp [initSession]; omega) (by simp [initSession])

/-- Witness for claim C9 at sensitivity 3 with instant mode on and one
arriving chunk. -/
theorem session_loop_buffer_invariant_witness :
    (1 ≤ 3 ∧ 3 ≤ 5) ∧
    ((sessionRun true (30 - 2 * 3) initSession
        [([0], .ok [], .ok [])]).1.audio_buffer.length < 30 - 2 * 3 ∧
     (sessionRun true (30 - 2 * 3) initSession
        [([0], .ok [], .ok [])]).1.instant_buffer.length < 8) :=
  ⟨⟨by decide, by decide⟩,
    session_loop_buffer_invariant 3 (by decide) (by decide) true [([0], .ok [], .ok [])]⟩

/-- The emission decision written out without its local binding. -/
theorem emitDecision_eq (threshold : Rat) (st : DedupState) (seg : Segment) (now : Rat) :
    emitDecision threshold st seg now =
      (if (pyStrip seg.text != "") && ((pyStrip seg.text != st.lastText) ||
            decide (now - st.lastTime > threshold))
        then ({ lastText := pyStrip seg.text, lastTime := now }, true)
        else (st, false)) := rfl

/-- The Bool emission guard agrees with its propositional reading. -/
theorem emitGuard_iff (threshold : Rat) (st : DedupState) (seg : Segment) (now : Rat) :
    (((pyStrip seg.text != "") && ((pyStrip seg.text != st.lastText) ||
        decide (now - st.lastTime > threshold))) = true) ↔
      (pyStrip seg.text ≠ "" ∧
        (pyStrip seg.text ≠ st.lastText ∨ now - st.lastTime > threshold)) := by
  simp [Bool.and_eq_true, Bool.or_eq_true, bne_iff_ne, decide_eq_true_eq]

/-- Claim C1: for each lane, a segment is emitted if and only if its
stripped text is non-empty and either differs from the last emitted text
or arrived more than the cadence threshold (1.0 instant, 2.0 final)
after the last emission time; the last-emitted pair is updated exactly
on emission, and is left unchanged on suppression; segments of a flush
are filtered independently, in order, against the updated state. -/
theorem dedup_emit_rule (lane : Lane) (st : DedupState) (seg : Segment) (now : Rat)
    (rest : List (Segment × Rat)) :
    (Lane.instant.cadence = 1 ∧ Lane.final.cadence = 2) ∧
    ((emitDecision lane.cadence st seg now).2 = true ↔
      pyStrip seg.text ≠ "" ∧
        (pyStrip seg.text ≠ st.lastText ∨ now - st.lastTime > lane.cadence)) ∧
    ((emitDecision lane.cadence st seg now).2 = true →
      (emitDecision lane.cadence st seg now).1 =
        { lastText := pyStrip seg.text, lastTime := now }) ∧
    ((emitDecision lane.cadence st seg now).2 = false →
      (emitDecision lane.cadence st seg now).1 = st) ∧
    processSegments lane.cadence st ((seg, now) :: rest) =
      ((processSegments lane.cadence (emitDecision lane.cadence st seg now).1 rest).1,
       (if (emitDecision lane.cadence st seg now).2 then [seg] else []) ++
         (processSegments lane.cadence (emitDecision lane.cadence st seg now).1 rest).2) := by
  by_cases hc : ((pyStrip seg.text != "") && ((pyStrip seg.text != st.lastText) ||
      decide (now - st.lastTime > lane.cadence))) = true
  · refine ⟨⟨rfl, rfl⟩, ?_, ?_, ?_, rfl⟩
    · rw [emitDecision_eq, if_pos hc]
      simp only [true_iff]
      exact (emitGuard_iff lane.cadence st seg now).mp hc
    · intro _
      rw [emitDecision_eq, if_pos hc]
    · intro hfalse
      rw [emitDecision_eq, if_pos hc] at hfalse
      exact absurd hfalse (by simp)
  · refine ⟨⟨rfl, rfl⟩, ?_, ?_, ?_, rfl⟩
    · rw [emitDecision_eq, if_neg hc]
      constructor
      · intro h
        exact absurd h (by simp)
      · intro hp
        exact absurd ((emitGuard_iff lane.cadence st seg now).mpr hp) hc
    · intro htrue
      rw [emitDecision_eq, if_neg hc] at htrue
      exact absurd htrue (by simp)
    · intro _
      rw [emitDecision_eq, if_neg hc]

/-- Witness for claim C1, scenario B: with "hej" last emitted at time 0,
an identical "hej" at time 3/2 is emitted on the instant lane (3/2
exceeds cadence 1) and the instant lane state is updated to the new
time; the same segment on the final lane is suppressed (3/2 does not
exceed cadence 2). -/
theorem dedup_emit_rule_witness :
    (emitDecision Lane.instant.cadence ⟨"hej", 0⟩ ⟨"hej", 0, 1⟩ (3 / 2)).2 = true ∧
    (emitDecision Lane.instant.cadence ⟨"hej", 0⟩ ⟨"hej", 0, 1⟩ (3 / 2)).1 =
      ⟨"hej", 3 / 2⟩ ∧
    (emitDecision Lane.final.cadence ⟨"hej", 0⟩ ⟨"hej", 0, 1⟩ (3 / 2)).2 = false ∧
    (emitDecision Lane.final.cadence ⟨"hej", 0⟩ ⟨"hej", 0, 1⟩ (3 / 2)).1 =
      ⟨"hej", 0⟩ := by
  have hi := dedup_emit_rule .instant ⟨"hej", 0⟩ ⟨"hej", 0, 1⟩ (3 / 2) []
  have hf := dedup_emit_rule .final ⟨"hej", 0⟩ ⟨"hej", 0, 1⟩ (3 / 2) []
  have hei : (emitDecision Lane.instant.cadence ⟨"hej", 0⟩ ⟨"hej", 0, 1⟩ (3 / 2)).2 =
      true :=
    hi.2.1.mpr (by refine ⟨by decide, Or.inr ?_⟩; norm_num [Lane.cadence])
  have hef : (emitDecision Lane.final.cadence ⟨"hej", 0⟩ ⟨"hej", 0, 1⟩ (3 / 2)).2 =
      false := by
    cases he : (emitDecision Lane.final.cadence ⟨"hej", 0⟩ ⟨"hej", 0, 1⟩ (3 / 2)).2
    · rfl
    · have := hf.2.1.mp he
      rcases this with ⟨-, h2⟩
      rcases h2 with h2 | h2
      · exact absurd (by decide : pyStrip ("hej" : String) = "hej") (by simpa using h2)
      · exact absurd h2 (by norm_num [Lane.cadence])
  refine ⟨hei, ?_, hef, ?_⟩
  · rw [hi.2.2.1 hei]
    congr 1
  · rw [hf.2.2.2.1 hef]

/-- Claim C2: with the loop invariant that a lane buffer is strictly
below its threshold, a flush happens exactly when the arriving chunk
brings the count up to the threshold, and the post-flush buffer is
exactly the most recent threshold/4 chunks. -/
theorem flush_trigger_and_overlap (lane : Lane) (thr : Nat) (s : LaneState)
    (c : Chunk) (o : FlushOutcome) (hthr : 4 ≤ thr) (hlt : s.buffer.length < thr) :
    ((laneStep lane thr s c o).flushed.isSome = true ↔ s.buffer.length + 1 = thr) ∧
    (s.buffer.length + 1 = thr →
      (laneStep lane thr s c o).state.buffer =
        (s.buffer ++ [c]).drop (thr - thr / 4) ∧
      (laneStep lane thr s c o).state.buffer.length = thr / 4) := by
  have hlen : (s.buffer ++ [c]).length = s.buffer.length + 1 := by simp
  constructor
  · rw [laneStep_flushed]
    by_cases h : (s.buffer ++ [c]).length ≥ thr
    · rw [if_pos h]
      simp only [Option.isSome_some, true_iff]
      omega
    · rw [if_neg h]
      constructor
      · intro hfalse
        exact absurd hfalse (by simp)
      · intro heq
        exact absurd (by omega : (s.buffer ++ [c]).length ≥ thr) h
  · intro heq
    have h : (s.buffer ++ [c]).length ≥ thr := by omega
    have hk : thr / 4 ≠ 0 := by omega
    rw [laneStep_state_buffer, if_pos h]
    constructor
    · unfold pySliceLast
      rw [if_neg hk]
      congr 1
      omega
    · rw [pySliceLast_length, if_neg hk]
      omega

/-- A lane state holding 23 one-sample chunks. -/
def scenarioLane : LaneState := ⟨(List.range 23).map (fun i => [i]), ⟨"", 0⟩⟩

/-- An empty lane state. -/
def scenarioStart : LaneState := ⟨[], ⟨"", 0⟩⟩

/-- Twenty-four arriving one-sample chunks, each with a transcription
returning no segments. -/
def scenarioInputs : List (Chunk × FlushOutcome) :=
  (List.range 24).map (fun i => ([i], .ok []))

/-- Witness for claim C2, scenario A: at sensitivity 3 the final-lane
threshold is 24; the 24th chunk triggers the single flush of the run and
the buffer retains 6 = 24/4 chunks. -/
theorem flush_trigger_and_overlap_witness :
    (4 ≤ 24 ∧ scenarioLane.buffer.length < 24) ∧
    (((laneStep .final 24 scenarioLane [23] (.ok [])).flushed.isSome = true ↔
        scenarioLane.buffer.length + 1 = 24) ∧
     (scenarioLane.buffer.length + 1 = 24 →
        (laneStep .final 24 scenarioLane [23] (.ok [])).state.buffer =
          (scenarioLane.buffer ++ [[23]]).drop (24 - 24 / 4) ∧
        (laneStep .final 24 scenarioLane [23] (.ok [])).state.buffer.length = 24 / 4)) ∧
    buffer_size 3 = 24 ∧
    (runLane .final 24 scenarioStart scenarioInputs).2.1.length = 1 ∧
    (runLane .final 24 scenarioStart scenarioInputs).1.buffer.length = 6 :=
  ⟨⟨by decide, by decide⟩,
   flush_trigger_and_overlap .final 24 scenarioLane [23] (.ok []) (by decide) (by decide),
   by decide, by decide, by decide⟩

/-- Claim C3: when a lane starts a Filling phase with the retained
overlap `ov` and the arriving chunks fill it exactly to the threshold,
the run performs exactly one flush and the concatenation passed to the
adapter is the flattening of the overlap followed by the arrivals in
receipt order — no chunk reordered, dropped, or duplicated. -/
theorem flush_concat_fifo (lane : Lane) (thr : Nat) (d : DedupState) :
    ∀ (inputs : List (Chunk × FlushOutcome)) (ov : List Chunk),
      inputs ≠ [] → ov.length + inputs.length = thr →
      (runLane lane thr ⟨ov, d⟩ inputs).2.1 =
        [(ov ++ inputs.map Prod.fst).flatten] := by
  intro inputs
  induction inputs with
  | nil => intro ov h hl; exact absurd rfl h
  | cons p rest ih =>
      intro ov hne hlen
      obtain ⟨c, o⟩ := p
      simp only [List.length_cons] at hlen
      by_cases hrest : rest = []
      · subst hrest
        have hflush : (ov ++ [c]).length ≥ thr := by
          simp only [List.length_append, List.length_cons, List.length_nil]
          simp only [List.length_nil] at hlen
          omega
        simp only [runLane]
        rw [laneStep_flushed, if_pos hflush]
        simp
      · have hr1 : rest.length ≥ 1 := by
          cases rest
          · exact absurd rfl hrest
          · simp
        have hnof : ¬ (ov ++ [c]).length ≥ thr := by
          simp only [List.length_append, List.length_cons, List.length_nil]
          omega
        simp only [runLane]
        rw [laneStep_no_flush lane thr ⟨ov, d⟩ c o hnof]
        have hih := ih (ov ++ [c]) hrest (by
          simp only [List.length_append, List.length_cons, List.length_nil]
          omega)
        simp only [List.map_cons]
        simp only at hih
        rw [hih]
        simp

/-- Witness for claim C3: overlap of one chunk plus three arrivals fill
a threshold of 4; the single flush concatenation is overlap then
arrivals in order. -/
theorem flush_concat_fifo_witness :
    (([([1], FlushOutcome.ok []), ([2], .ok []), ([3], .ok [])] :
        List (Chunk × FlushOutcome)) ≠ [] ∧
      ([[9]] : List Chunk).length +
        ([([1], FlushOutcome.ok []), ([2], .ok []), ([3], .ok [])] :
          List (Chunk × FlushOutcome)).length = 4) ∧
    (runLane .final 4 ⟨[[9]], ⟨"", 0⟩⟩
        [([1], .ok []), ([2], .ok []), ([3], .ok [])]).2.1 =
      [(([[9]] : List Chunk) ++
          ([([1], FlushOutcome.ok []), ([2], .ok []), ([3], .ok [])] :
            List (Chunk × FlushOutcome)).map Prod.fst).flatten] :=
  ⟨⟨by decide, by decide⟩,
   flush_concat_fifo .final 4 ⟨"", 0⟩
     [([1], .ok []), ([2], .ok []), ([3], .ok [])] [[9]] (by decide) (by decide)⟩

/-- Claim C5: when the transcription attempt of a flush fails, the final
lane sends exactly one error event while the instant lane sends none;
the buffer was already truncated to its overlap before the failure, the
dedup state is untouched, and the session loop continues with the next
chunks from the resumed Filling state. -/
theorem flush_error_handling (lane : Lane) (thr : Nat) (s : LaneState) (c : Chunk)
    (msg : String) (rest : List (Chunk × FlushOutcome))
    (hfull : s.buffer.length + 1 ≥ thr) :
    (laneStep lane thr s c (.error msg)).events =
      (match lane with
        | .instant => []
        | .final => [OutEvent.error msg]) ∧
    (laneStep lane thr s c (.error msg)).state.buffer =
      pySliceLast (thr / 4) (s.buffer ++ [c]) ∧
    (laneStep lane thr s c (.error msg)).state.dedup = s.dedup ∧
    (runLane lane thr s ((c, .error msg) :: rest)).1 =
      (runLane lane thr (laneStep lane thr s c (.error msg)).state rest).1 := by
  have h : (s.buffer ++ [c]).length ≥ thr := by
    simp only [List.length_append, List.length_cons, List.length_nil]
    omega
  refine ⟨?_, ?_, ?_, rfl⟩
  · unfold laneStep
    rw [if_pos h]
  · rw [laneStep_state_buffer, if_pos h]
  · unfold laneStep
    rw [if_pos h]

/-- Witness for claim C5: at threshold 4 with three buffered chunks, a
failing flush on the final lane sends one error event and keeps the
single-chunk overlap; the same failing flush on the instant lane sends
nothing. -/
theorem flush_error_handling_witness :
    ((⟨[[1], [2], [3]], ⟨"", 0⟩⟩ : LaneState).buffer.length + 1 ≥ 4) ∧
    ((laneStep .final 4 ⟨[[1], [2], [3]], ⟨"", 0⟩⟩ [4] (.error "boom")).events =
        [OutEvent.error "boom"] ∧
     (laneStep .final 4 ⟨[[1], [2], [3]], ⟨"", 0⟩⟩ [4] (.error "boom")).state.buffer =
        pySliceLast (4 / 4) ([[1], [2], [3]] ++ [[4]]) ∧
     (laneStep .final 4 ⟨[[1], [2], [3]], ⟨"", 0⟩⟩ [4] (.error "boom")).state.dedup =
        ⟨"", 0⟩ ∧
     (runLane .final 4 ⟨[[1], [2], [3]], ⟨"", 0⟩⟩ [([4], .error "boom")]).1 =
        (runLane .final 4
          (laneStep .final 4 ⟨[[1], [2], [3]], ⟨"", 0⟩⟩ [4] (.error "boom")).state []).1) ∧
    (laneStep .instant 4 ⟨[[1], [2], [3]], ⟨"", 0⟩⟩ [4] (.error "boom")).events = [] :=
  ⟨by decide,
   flush_error_handling .final 4 ⟨[[1], [2], [3]], ⟨"", 0⟩⟩ [4] "boom" [] (by decide),
   by decide⟩

end LiveSubtitles
